/-
A verification development for the contagion simulation engine
(`projects/pj02/model.py`): a population of moving point agents in a
bounded 2-D arena, with a three-tier health state machine
(Vulnerable / Infected-with-counter / Immune), pairwise contact
infection, elastic boundary bouncing, and a completion predicate.

Modelling conventions:
* Python floats are modelled as rationals (`ℚ`); none of the verified
  properties depends on floating-point rounding.
* `Point.distance` in the source computes `sqrt(dx² + dy²)` and compares
  the result with the contact radius.  Since `sqrt` is monotone and the
  radius is non-negative, `distance p q ≤ r` iff `distSq p q ≤ r²`; the
  embedding therefore works with the squared distance `Point.distSq`,
  which keeps every definition executable over `ℚ`.
* Mutation is modelled by explicit state passing: every method that
  mutates a `Cell` or the `Model` returns the updated value.
* The unseeded random source used by `Model.__init__` is abstracted as
  two input streams `locs dirs : Nat → Point` supplying the random
  location and direction of the `i`-th created cell, following the
  note in the spec that randomness is a pluggable source.
-/
import Mathlib

namespace Contagion

/-- Modelled from the spec: the module `projects/pj02/constants.py` is
not part of the sources; only `model.py` refers to it.  The spec fixes
the incubation ceiling at 90 (hard-coded in `Cell.tick`), makes
`VULNERABLE` the baseline tier, `INFECTED` the start of the infected
range whose value acts as an incubation counter, and `IMMUNE` a single
terminal sentinel distinct from both.  Given the source predicates
(`is_infected` is `sickness >= INFECTED`, `is_immune` is
`sickness == IMMUNE`) and the source `tick` (immunize once the counter
is at or above the ceiling, then increment while still infected),
`IMMUNE` must lie strictly below `INFECTED` for `Immune` to be the
terminal state the spec describes — a value above the infected range
would itself test as infected, keep incrementing, and never satisfy
`is_immune` again.  We use the conventional sentinel values
`VULNERABLE = 0`, `INFECTED = 1`, `IMMUNE = -1`. -/
def VULNERABLE : Int := 0

/-- Modelled from the spec: start of the infected range (see
`VULNERABLE` for the derivation of the sentinel values). -/
def INFECTED : Int := 1

/-- Modelled from the spec: the terminal immune sentinel (see
`VULNERABLE` for the derivation of the sentinel values). -/
def IMMUNE : Int := -1

/-- Modelled from the spec: fixed arena bounds
`[MIN_X, MAX_X] × [MIN_Y, MAX_Y]`; the spec gives no numeric values, so
representative engine constants are used.  No claim depends on the
particular numbers, only on `MIN < MAX`. -/
def MAX_X : ℚ := 200

/-- Modelled from the spec: see `MAX_X`. -/
def MIN_X : ℚ := -200

/-- Modelled from the spec: see `MAX_X`. -/
def MAX_Y : ℚ := 200

/-- Modelled from the spec: see `MAX_X`. -/
def MIN_Y : ℚ := -200

/-- Modelled from the spec: fixed contact radius; the spec gives no
numeric value, so a representative engine constant is used.  No claim
depends on the particular number, only on its non-negativity. -/
def CELL_RADIUS : ℚ := 15

/-- A 2-d cartesian coordinate point (`class Point`). -/
structure Point where
  x : ℚ
  y : ℚ
  deriving Repr, DecidableEq

/-- Source `Point.add`: coordinate-wise sum, returning a new point. -/
def Point.add (self other : Point) : Point :=
  ⟨self.x + other.x, self.y + other.y⟩

/-- The square of `Point.distance`: the source computes
`sqrt((x₁-x₂)² + (y₁-y₂)²)`; comparisons of the distance against a
non-negative radius `r` are carried out on `distSq` against `r²`. -/
def Point.distSq (self other : Point) : ℚ :=
  (self.x - other.x) * (self.x - other.x) +
    (self.y - other.y) * (self.y - other.y)

/-- An individual subject in the simulation (`class Cell`):
a location, a direction (velocity) and an integer health value
(`sickness`, class default `constants.VULNERABLE`). -/
structure Cell where
  location : Point
  direction : Point
  sickness : Int := VULNERABLE
  deriving Repr, DecidableEq

/-- Source `Cell.is_vulnerable`: `sickness == constants.VULNERABLE`. -/
def Cell.is_vulnerable (self : Cell) : Bool :=
  self.sickness == VULNERABLE

/-- Source `Cell.is_infected`: `sickness >= constants.INFECTED`. -/
def Cell.is_infected (self : Cell) : Bool :=
  INFECTED ≤ self.sickness

/-- Source `Cell.is_immune`: `sickness == constants.IMMUNE`. -/
def Cell.is_immune (self : Cell) : Bool :=
  self.sickness == IMMUNE

/-- Source `Cell.contract_disease`: sets `sickness` to `constants.INFECTED`. -/
def Cell.contract_disease (self : Cell) : Cell :=
  { self with sickness := INFECTED }

/-- Source `Cell.immunize`: sets `sickness` to `constants.IMMUNE`. -/
def Cell.immunize (self : Cell) : Cell :=
  { self with sickness := IMMUNE }

/-- Source `Cell.tick`: advance `location` by `direction`; if `sickness >= 90`
immunize; then, if (still) infected, increment `sickness` by one. -/
def Cell.tick (self : Cell) : Cell :=
  let moved : Cell := { self with location := self.location.add self.direction }
  let checked : Cell := if 90 ≤ moved.sickness then moved.immunize else moved
  if checked.is_infected then
    { checked with sickness := checked.sickness + 1 }
  else
    checked

/-- Source `Cell.color`: display tag for rendering. -/
def Cell.color (self : Cell) : String :=
  if self.is_vulnerable then "gray"
  else if self.is_immune then "green"
  else "red"

/-- Source `Cell.contact_with`: if exactly one of the pair is infected and the
other vulnerable, both contract the disease; the pair (self, other) of
updated cells is returned. -/
def Cell.contact_with (self other : Cell) : Cell × Cell :=
  if (self.is_vulnerable && other.is_infected) ||
      (self.is_infected && other.is_vulnerable) then
    (self.contract_disease, other.contract_disease)
  else
    (self, other)

/-- The state of the simulation (`class Model`): the ordered population
and the integer clock (class default `time = 0`). -/
structure Model where
  population : List Cell
  time : Int := 0
  deriving Repr, DecidableEq

/-- The ordered list of index pairs `(i, j)` visited by the nested loops
of `Model.check_contacts`: `i` ranges over `range(0, n)` and `j` over
`range(i + 1, n)`. -/
def allPairs (n : Nat) : List (Nat × Nat) :=
  (List.range n).flatMap fun i =>
    (List.range' (i + 1) (n - (i + 1))).map fun j => (i, j)

/-- One iteration of the inner loop body of `Model.check_contacts`: for
the index pair `ij`, if both indices are in range and the two
locations are within the contact radius, apply `contact_with` to the
pair and store both updated cells back into the population.  (In the
source the indices produced by the loops are always in range; the
out-of-range branch is unreachable there.) -/
def applyContact (pop : List Cell) (ij : Nat × Nat) : List Cell :=
  match pop[ij.1]?, pop[ij.2]? with
  | some a, some b =>
      if a.location.distSq b.location ≤ CELL_RADIUS * CELL_RADIUS then
        let ab := a.contact_with b
        (pop.set ij.1 ab.1).set ij.2 ab.2
      else
        pop
  | _, _ => pop

/-- Run the contact pass over an explicit list of index pairs, in
order. -/
def runPairs (pairs : List (Nat × Nat)) (pop : List Cell) : List Cell :=
  pairs.foldl applyContact pop

/-- Source `Model.check_contacts`: for every pair of distinct cells, in
population order (outer index < inner index), test proximity and apply
`contact_with`; the updated population is returned. -/
def Model.check_contacts (pop : List Cell) : List Cell :=
  runPairs (allPairs pop.length) pop

/-- Source `Model.enforce_bounds`: for each axis independently, if the
position exceeds the maximum bound, clamp it there and negate that
direction component of that axis; likewise for the minimum bound.  The four
tests run in sequence, exactly as in the source. -/
def Model.enforce_bounds (cell : Cell) : Cell :=
  let cell :=
    if MAX_X < cell.location.x then
      { cell with location.x := MAX_X, direction.x := -cell.direction.x }
    else cell
  let cell :=
    if cell.location.x < MIN_X then
      { cell with location.x := MIN_X, direction.x := -cell.direction.x }
    else cell
  let cell :=
    if MAX_Y < cell.location.y then
      { cell with location.y := MAX_Y, direction.y := -cell.direction.y }
    else cell
  if cell.location.y < MIN_Y then
    { cell with location.y := MIN_Y, direction.y := -cell.direction.y }
  else cell

/-- Source `Model.tick`: increment the clock; advance every cell
(`cell.tick()`) and immediately bound it (`enforce_bounds(cell)`), in
population order; after every cell has moved, run one full
`check_contacts` pass. -/
def Model.tick (m : Model) : Model :=
  { population :=
      Model.check_contacts
        (m.population.map fun c => Model.enforce_bounds c.tick),
    time := m.time + 1 }

/-- Source `Model.is_complete`: the source walks the population with a boolean
flag that starts `true` and is set to `false` whenever an infected cell
is seen. -/
def Model.is_complete (m : Model) : Bool :=
  m.population.foldl (fun b c => if c.is_infected then false else b) true

/-- Source `Model.__init__`: validate `initial_infections > 0`,
`initial_immunities ≥ 0` and
`initial_infections + initial_immunities < cells`, raising a
configuration error (`ValueError` in the source) otherwise; on success
create `cells` cells (location and direction drawn from the abstracted
random streams `locs` and `dirs`, sickness at the class default
`VULNERABLE`), then force the first `initial_infections` cells infected
and the next `initial_immunities` cells immune.  The clock starts at
the class default `0`. -/
def Model.init (cells : Nat) (locs dirs : Nat → Point)
    (initial_infections initial_immunities : Int) :
    Except String Model :=
  if initial_infections ≤ 0 then
    .error "We do not have enough infected potatoes."
  else if initial_immunities < 0 then
    .error "Cannot have negative potatoes!"
  else if (cells : Int) ≤ initial_infections + initial_immunities then
    .error "Too few vulnerable potatoes!"
  else
    let pop : List Cell :=
      (List.range cells).map fun i =>
        let base : Cell := { location := locs i, direction := dirs i }
        if (i : Int) < initial_infections then base.contract_disease
        else if (i : Int) < initial_infections + initial_immunities then
          base.immunize
        else base
    .ok { population := pop }

/-- The health tier of a sickness value, following the three-tier
classification of the spec: `Immune` is the top tier, the infected
range the middle tier, and everything else (in particular the
`VULNERABLE` baseline) the bottom tier. -/
def healthTier (s : Int) : Nat :=
  if s = IMMUNE then 2 else if INFECTED ≤ s then 1 else 0

/-- How a single cell can evolve during one `check_contacts` pass:
location and direction are untouched, and the sickness value either
stays put or is set to `INFECTED`, the latter only when the cell was
vulnerable or infected beforehand. -/
def passStep (c d : Cell) : Prop :=
  d.location = c.location ∧ d.direction = c.direction ∧
    (d.sickness = c.sickness ∨
      ((c.sickness = VULNERABLE ∨ INFECTED ≤ c.sickness) ∧
        d.sickness = INFECTED))

/-- Lift of `passStep` to the optional cells returned by indexing. -/
def stepOpt (o p : Option Cell) : Prop :=
  (o = none ∧ p = none) ∨ ∃ c d, o = some c ∧ p = some d ∧ passStep c d

/-- Well-formed sickness values: the ones reachable in the simulation
(baseline, immune sentinel, or an incubation counter between the
infection start value and the ceiling). -/
def WFsick (s : Int) : Prop :=
  s = VULNERABLE ∨ s = IMMUNE ∨ (INFECTED ≤ s ∧ s ≤ 90)

/-- A concrete infected cell (incubation counter 50) at the origin,
used by counterexamples and witnesses. -/
def cexA : Cell := { location := ⟨0, 0⟩, direction := ⟨0, 0⟩, sickness := 50 }

/-- A concrete vulnerable cell within contact radius of `cexA`. -/
def cexB : Cell := { location := ⟨10, 0⟩, direction := ⟨0, 0⟩ }

/-- A concrete vulnerable cell within contact radius of `cexB` but not
of `cexA`. -/
def cexC : Cell := { location := ⟨20, 0⟩, direction := ⟨0, 0⟩ }

/-- The cell `cexA` after its counter was reset by a contact. -/
def cexA1 : Cell := { location := ⟨0, 0⟩, direction := ⟨0, 0⟩, sickness := 1 }

/-- The cell `cexB` freshly infected. -/
def cexB1 : Cell := { location := ⟨10, 0⟩, direction := ⟨0, 0⟩, sickness := 1 }

/-- The cell `cexC` freshly infected. -/
def cexC1 : Cell := { location := ⟨20, 0⟩, direction := ⟨0, 0⟩, sickness := 1 }

/-- A three-cell population in a row: infected, vulnerable, vulnerable,
with consecutive cells in contact range and the outer two out of
range. -/
def cexPop : List Cell := [cexA, cexB, cexC]

/-- The pair order of `check_contacts` on three cells, with the pair
(1, 2) visited first instead of last. -/
def cexAltOrder : List (Nat × Nat) := [(1, 2), (0, 1), (0, 2)]

/-- A concrete cell whose incubation counter is at the ceiling. -/
def cellAt90 : Cell := { location := ⟨0, 0⟩, direction := ⟨0, 0⟩, sickness := 90 }

/-- A concrete cell whose incubation counter is strictly below the
ceiling. -/
def cellAt5 : Cell := { location := ⟨0, 0⟩, direction := ⟨0, 0⟩, sickness := 5 }

/-- A concrete immune cell. -/
def cellImm : Cell := { location := ⟨0, 0⟩, direction := ⟨0, 0⟩, sickness := -1 }

/-- A concrete cell outside the arena on both axes (corner case for
`enforce_bounds`). -/
def cellOut : Cell := { location := ⟨250, -300⟩, direction := ⟨5, -7⟩ }

/-- A trivial random stream: every cell starts at the origin with zero
direction. -/
def zeroStream : Nat → Point := fun _ => ⟨0, 0⟩

/-- The model produced by a successful `Model.init 3 zeroStream
zeroStream 1 1`. -/
def initModel3 : Model :=
  { population :=
      [{ location := ⟨0, 0⟩, direction := ⟨0, 0⟩, sickness := 1 },
        { location := ⟨0, 0⟩, direction := ⟨0, 0⟩, sickness := -1 },
        { location := ⟨0, 0⟩, direction := ⟨0, 0⟩, sickness := 0 }] }

/-! ## Basic facts about the health predicates and the cell state
machine -/

theorem is_vulnerable_iff {c : Cell} :
    c.is_vulnerable = true ↔ c.sickness = VULNERABLE := by
  simp [Cell.is_vulnerable]

theorem is_infected_iff {c : Cell} :
    c.is_infected = true ↔ INFECTED ≤ c.sickness := by
  simp [Cell.is_infected]

theorem is_immune_iff {c : Cell} :
    c.is_immune = true ↔ c.sickness = IMMUNE := by
  simp [Cell.is_immune]

theorem vulnerable_not_infected {c : Cell} (h : c.is_vulnerable = true) :
    c.is_infected = false := by
  rw [is_vulnerable_iff] at h
  simp [Cell.is_infected, h, VULNERABLE, INFECTED]

theorem immune_not_infected {c : Cell} (h : c.is_immune = true) :
    c.is_infected = false := by
  rw [is_immune_iff] at h
  simp [Cell.is_infected, h, IMMUNE, INFECTED]

theorem immune_not_vulnerable {c : Cell} (h : c.is_immune = true) :
    c.is_vulnerable = false := by
  rw [is_immune_iff] at h
  simp [Cell.is_vulnerable, h, IMMUNE, VULNERABLE]

theorem infected_not_vulnerable {c : Cell} (h : c.is_infected = true) :
    c.is_vulnerable = false := by
  rw [is_infected_iff] at h
  rw [INFECTED] at h
  simp [Cell.is_vulnerable, VULNERABLE]
  omega

/-- The sickness value produced by `Cell.tick`, isolated from the
movement part. -/
theorem tick_sickness (c : Cell) :
    (Cell.tick c).sickness =
      if 90 ≤ c.sickness then IMMUNE
      else if INFECTED ≤ c.sickness then c.sickness + 1
      else c.sickness := by
  simp only [Cell.tick, Cell.immunize, Cell.is_infected]
  split_ifs <;> simp_all [INFECTED, IMMUNE]
  all_goals omega

theorem tick_location (c : Cell) :
    (Cell.tick c).location = c.location.add c.direction := by
  simp only [Cell.tick, Cell.immunize]
  split_ifs <;> rfl

theorem tick_direction (c : Cell) :
    (Cell.tick c).direction = c.direction := by
  simp only [Cell.tick, Cell.immunize]
  split_ifs <;> rfl

theorem enforce_bounds_sickness (c : Cell) :
    (Model.enforce_bounds c).sickness = c.sickness := by
  simp only [Model.enforce_bounds]
  split_ifs <;> rfl

/-- C2.  A cell in the infected range is immunized by `Cell.tick`
exactly when its incubation counter is already at (or, were it
reachable, beyond) the ceiling 90, and its counter receives no
increment on that tick; on a tick where the counter is still below the
ceiling it increments by exactly 1 — including the tick that takes it
from 89 to the ceiling itself — and the cell stays infected. -/
theorem tick_immunizes_at_ceiling (c : Cell) (h : c.is_infected = true) :
    (90 ≤ c.sickness →
      (Cell.tick c).is_immune = true ∧ (Cell.tick c).sickness = IMMUNE) ∧
    (c.sickness < 90 →
      (Cell.tick c).sickness = c.sickness + 1 ∧
        (Cell.tick c).is_infected = true) ∧
    ((Cell.tick c).is_immune = true ↔ 90 ≤ c.sickness) := by
  rw [is_infected_iff, INFECTED] at h
  refine ⟨fun h90 => ?_, fun h90 => ?_, ?_⟩
  · rw [is_immune_iff, tick_sickness]
    simp [h90]
  · have hs : (Cell.tick c).sickness = c.sickness + 1 := by
      rw [tick_sickness, if_neg (by omega), if_pos (by rw [INFECTED]; omega)]
    refine ⟨hs, ?_⟩
    rw [is_infected_iff, hs, INFECTED]
    omega
  · rw [is_immune_iff, tick_sickness, INFECTED, IMMUNE]
    split_ifs with h90
    · simp [h90]
    · constructor
      · intro hh
        omega
      · intro hh
        omega

/-- Witness for C2 at the ceiling (counter 90) and below it
(counter 5). -/
theorem tick_immunizes_at_ceiling_witness :
    ((Cell.tick cellAt90).is_immune = true ∧
      (Cell.tick cellAt90).sickness = IMMUNE) ∧
    (Cell.tick cellAt5).sickness = cellAt5.sickness + 1 ∧
      (Cell.tick cellAt5).is_infected = true :=
  ⟨(tick_immunizes_at_ceiling cellAt90 (by decide)).1 (by decide),
    (tick_immunizes_at_ceiling cellAt5 (by decide)).2.1 (by decide)⟩

/-- C10.  When `contact_with` pairs an infected cell with a vulnerable
one (in either role), `contract_disease` is invoked on both cells, so
the already-infected partner has its incubation counter reset to the
infection start value rather than left unchanged. -/
theorem contact_resets_infected_counter (a b : Cell)
    (ha : a.is_infected = true) (hb : b.is_vulnerable = true) :
    a.contact_with b = (a.contract_disease, b.contract_disease) ∧
    b.contact_with a = (b.contract_disease, a.contract_disease) ∧
    (a.contact_with b).1.sickness = INFECTED ∧
    (b.contact_with a).2.sickness = INFECTED := by
  have h1 : a.contact_with b = (a.contract_disease, b.contract_disease) := by
    rw [Cell.contact_with, if_pos]
    rw [ha, hb]
    simp
  have h2 : b.contact_with a = (b.contract_disease, a.contract_disease) := by
    rw [Cell.contact_with, if_pos]
    rw [ha, hb]
    simp
  exact ⟨h1, h2, by rw [h1]; rfl, by rw [h2]; rfl⟩

/-- Witness for C10: an infected cell whose counter has advanced to 50
is reset to the start value 1 by a contact with a vulnerable cell. -/
theorem contact_resets_infected_counter_witness :
    cexA.sickness = 50 ∧
    (cexA.contact_with cexB).1.sickness = INFECTED ∧
    INFECTED = 1 :=
  ⟨rfl,
    (contact_resets_infected_counter cexA cexB (by decide) (by decide)).2.2.1,
    rfl⟩

/-- C5.  The constructor fails with a configuration error exactly when
`initial_infections ≤ 0`, or `initial_immunities < 0`, or
`initial_infections + initial_immunities ≥ population_size`; dually it
returns a model exactly when all three invariants hold — so it fails
for `initial_infections = 0`, for `initial_immunities = -1` and at
`initial_infections + initial_immunities = population_size`, succeeds
at the boundary `initial_infections + initial_immunities =
population_size - 1`, and never returns a partial model on failure. -/
theorem init_error_iff (cells : Nat) (locs dirs : Nat → Point)
    (ii im : Int) :
    ((∃ e, Model.init cells locs dirs ii im = .error e) ↔
      ii ≤ 0 ∨ im < 0 ∨ (cells : Int) ≤ ii + im) ∧
    ((∃ m, Model.init cells locs dirs ii im = .ok m) ↔
      0 < ii ∧ 0 ≤ im ∧ ii + im < (cells : Int)) := by
  unfold Model.init
  split_ifs with h1 h2 h3 <;> constructor <;> simp <;> omega

/-- C9.  On successful construction the clock is 0, the population has
exactly `cells` members, and in creation order the first
`initial_infections` cells carry the infection start value, the next
`initial_immunities` cells the immune value, and the rest the
vulnerable baseline; each cell carries the supplied location and
direction. -/
theorem init_population_layout (cells : Nat) (locs dirs : Nat → Point)
    (ii im : Int) (m : Model)
    (h : Model.init cells locs dirs ii im = .ok m) :
    m.time = 0 ∧ m.population.length = cells ∧
    ∀ k : Nat, k < cells →
      ∃ c, m.population[k]? = some c ∧ c.location = locs k ∧
        c.direction = dirs k ∧
        c.sickness =
          (if (k : Int) < ii then INFECTED
           else if (k : Int) < ii + im then IMMUNE
           else VULNERABLE) := by
  unfold Model.init at h
  split_ifs at h
  rw [Except.ok.injEq] at h
  subst h
  refine ⟨rfl, by simp, fun k hk => ?_⟩
  simp only [List.getElem?_map, List.getElem?_range hk, Option.map_some']
  refine ⟨_, rfl, ?_, ?_, ?_⟩ <;>
    (simp only [Cell.contract_disease, Cell.immunize]; split_ifs <;> rfl)

/-- Witness for C9: a successful three-cell construction with one
initial infection and one initial immunity. -/
theorem init_population_layout_witness :
    initModel3.time = 0 ∧ initModel3.population.length = 3 ∧
    ∀ k : Nat, k < 3 →
      ∃ c, initModel3.population[k]? = some c ∧
        c.location = zeroStream k ∧ c.direction = zeroStream k ∧
        c.sickness =
          (if (k : Int) < 1 then INFECTED
           else if (k : Int) < 1 + 1 then IMMUNE
           else VULNERABLE) :=
  init_population_layout 3 zeroStream zeroStream 1 1 initModel3 rfl

/-- The boolean flag folded by `Model.is_complete` computes the
conjunction of the initial flag with all-cells-not-infected. -/
theorem foldl_complete_flag (l : List Cell) (b : Bool) :
    l.foldl (fun acc c => if c.is_infected then false else acc) b =
      (b && l.all fun c => !c.is_infected) := by
  induction l generalizing b with
  | nil => simp
  | cons c l ih =>
    rw [List.foldl_cons, ih, List.all_cons]
    cases h : c.is_infected <;> simp [h]

/-- C8.  The completion predicate holds exactly when no cell of the
population is currently infected, whatever the mix of vulnerable and
immune cells. -/
theorem is_complete_iff_no_infected (m : Model) :
    m.is_complete = true ↔ ∀ c ∈ m.population, c.is_infected = false := by
  rw [Model.is_complete, foldl_complete_flag]
  simp

/-- Closed form of `Model.enforce_bounds`: each coordinate is clamped
into its interval and the matching direction component is negated
exactly when that coordinate was out of bounds; the sickness value is
untouched.  (The two source tests per axis cannot both fire because the
bounds satisfy `MIN < MAX`.) -/
theorem enforce_bounds_eq (c : Cell) :
    Model.enforce_bounds c =
      { location :=
          ⟨if MAX_X < c.location.x then MAX_X
            else if c.location.x < MIN_X then MIN_X else c.location.x,
           if MAX_Y < c.location.y then MAX_Y
            else if c.location.y < MIN_Y then MIN_Y else c.location.y⟩,
        direction :=
          ⟨if MAX_X < c.location.x ∨ c.location.x < MIN_X then
              -c.direction.x else c.direction.x,
           if MAX_Y < c.location.y ∨ c.location.y < MIN_Y then
              -c.direction.y else c.direction.y⟩,
        sickness := c.sickness } := by
  obtain ⟨⟨x, y⟩, ⟨dx, dy⟩, s⟩ := c
  simp only [Model.enforce_bounds]
  split_ifs <;> first | rfl | tauto

/-- C7.  After `enforce_bounds` the coordinates lie within
`[MIN, MAX]` on both axes; an axis whose position was out of bounds
(and hence clamped) has its direction component negated — same
magnitude, flipped sign — while an axis in bounds keeps both its
position and its direction; the two axes are handled independently, so
both can clamp and flip in the same call. -/
theorem enforce_bounds_spec (c : Cell) :
    (MIN_X ≤ (Model.enforce_bounds c).location.x ∧
      (Model.enforce_bounds c).location.x ≤ MAX_X ∧
      MIN_Y ≤ (Model.enforce_bounds c).location.y ∧
      (Model.enforce_bounds c).location.y ≤ MAX_Y) ∧
    ((MAX_X < c.location.x ∨ c.location.x < MIN_X) →
      (Model.enforce_bounds c).direction.x = -c.direction.x ∧
      |(Model.enforce_bounds c).direction.x| = |c.direction.x|) ∧
    (MIN_X ≤ c.location.x ∧ c.location.x ≤ MAX_X →
      (Model.enforce_bounds c).location.x = c.location.x ∧
      (Model.enforce_bounds c).direction.x = c.direction.x) ∧
    ((MAX_Y < c.location.y ∨ c.location.y < MIN_Y) →
      (Model.enforce_bounds c).direction.y = -c.direction.y ∧
      |(Model.enforce_bounds c).direction.y| = |c.direction.y|) ∧
    (MIN_Y ≤ c.location.y ∧ c.location.y ≤ MAX_Y →
      (Model.enforce_bounds c).location.y = c.location.y ∧
      (Model.enforce_bounds c).direction.y = c.direction.y) := by
  rw [enforce_bounds_eq]
  dsimp only
  refine ⟨⟨?_, ?_, ?_, ?_⟩, fun h => ⟨?_, ?_⟩, fun h => ⟨?_, ?_⟩,
    fun h => ⟨?_, ?_⟩, fun h => ⟨?_, ?_⟩⟩
  · split_ifs with h1 h2
    · norm_num [MIN_X, MAX_X]
    · exact le_refl MIN_X
    · exact le_of_not_lt h2
  · split_ifs with h1 h2
    · exact le_refl MAX_X
    · norm_num [MIN_X, MAX_X]
    · exact le_of_not_lt h1
  · split_ifs with h1 h2
    · norm_num [MIN_Y, MAX_Y]
    · exact le_refl MIN_Y
    · exact le_of_not_lt h2
  · split_ifs with h1 h2
    · exact le_refl MAX_Y
    · norm_num [MIN_Y, MAX_Y]
    · exact le_of_not_lt h1
  · rw [if_pos h]
  · rw [if_pos h, abs_neg]
  · rw [if_neg (not_lt.mpr h.2), if_neg (not_lt.mpr h.1)]
  · rw [if_neg (not_or.mpr ⟨not_lt.mpr h.2, not_lt.mpr h.1⟩)]
  · rw [if_pos h]
  · rw [if_pos h, abs_neg]
  · rw [if_neg (not_lt.mpr h.2), if_neg (not_lt.mpr h.1)]
  · rw [if_neg (not_or.mpr ⟨not_lt.mpr h.2, not_lt.mpr h.1⟩)]

/-- Witness for C7: a corner case, out of bounds on both axes, with
both direction components flipped and the position clamped back into
the arena. -/
theorem enforce_bounds_spec_witness :
    (MAX_X < cellOut.location.x ∨ cellOut.location.x < MIN_X) ∧
    (MAX_Y < cellOut.location.y ∨ cellOut.location.y < MIN_Y) ∧
    (Model.enforce_bounds cellOut).direction.x = -cellOut.direction.x ∧
    (Model.enforce_bounds cellOut).direction.y = -cellOut.direction.y ∧
    MIN_X ≤ (Model.enforce_bounds cellOut).location.x ∧
    (Model.enforce_bounds cellOut).location.x ≤ MAX_X :=
  have hx : MAX_X < cellOut.location.x ∨ cellOut.location.x < MIN_X :=
    Or.inl (by norm_num [MAX_X, cellOut])
  have hy : MAX_Y < cellOut.location.y ∨ cellOut.location.y < MIN_Y :=
    Or.inr (by norm_num [MIN_Y, cellOut])
  ⟨hx, hy, ((enforce_bounds_spec cellOut).2.1 hx).1,
    ((enforce_bounds_spec cellOut).2.2.2.1 hy).1,
    (enforce_bounds_spec cellOut).1.1, (enforce_bounds_spec cellOut).1.2.1⟩

/-- C6.  Every `Model.tick` increments the clock by exactly 1; from any
state the clock after `n` steps is the starting clock plus `n`, so it
never decreases, and a freshly constructed model starts at 0.  The
population update is strictly ordered: every cell is advanced by
`Cell.tick` and immediately bounded by `enforce_bounds`, and only after
the whole population has moved and bounced does exactly one full
`check_contacts` pass run, over the post-movement positions. -/
theorem tick_clock_and_order :
    (∀ m : Model, (Model.tick m).time = m.time + 1) ∧
    (∀ (m : Model) (n : Nat), (Model.tick^[n] m).time = m.time + n) ∧
    (∀ (m : Model) (n : Nat), m.time ≤ (Model.tick^[n] m).time) ∧
    (∀ (cells : Nat) (locs dirs : Nat → Point) (ii im : Int) (m : Model),
      Model.init cells locs dirs ii im = .ok m → m.time = 0) ∧
    (∀ m : Model, (Model.tick m).population =
      Model.check_contacts
        (m.population.map fun c => Model.enforce_bounds (Cell.tick c))) := by
  have h1 : ∀ m : Model, (Model.tick m).time = m.time + 1 := fun m => rfl
  have h2 : ∀ (m : Model) (n : Nat), (Model.tick^[n] m).time = m.time + n := by
    intro m n
    induction n generalizing m with
    | zero => simp
    | succ n ih =>
      rw [Function.iterate_succ_apply, ih, h1]
      push_cast
      ring
  refine ⟨h1, h2, fun m n => ?_, fun cells locs dirs ii im m h => ?_,
    fun m => rfl⟩
  · rw [h2]
    omega
  · unfold Model.init at h
    split_ifs at h
    rw [Except.ok.injEq] at h
    subst h
    rfl

/-- Witness for C6: the clock of a freshly constructed model is 0. -/
theorem tick_clock_and_order_witness : initModel3.time = 0 :=
  tick_clock_and_order.2.2.2.1 3 zeroStream zeroStream 1 1 initModel3 rfl

theorem passStep_refl (c : Cell) : passStep c c := ⟨rfl, rfl, Or.inl rfl⟩

theorem passStep_trans {c d e : Cell} (h1 : passStep c d)
    (h2 : passStep d e) : passStep c e := by
  obtain ⟨l1, d1, s1⟩ := h1
  obtain ⟨l2, d2, s2⟩ := h2
  refine ⟨l2.trans l1, d2.trans d1, ?_⟩
  rcases s1 with h | ⟨hc, hd⟩
  · rcases s2 with h' | ⟨hd', he⟩
    · exact Or.inl (h'.trans h)
    · rw [h] at hd'
      exact Or.inr ⟨hd', he⟩
  · rcases s2 with h' | ⟨hd', he⟩
    · exact Or.inr ⟨hc, h'.trans hd⟩
    · exact Or.inr ⟨hc, he⟩

theorem passStep_infected {c d : Cell} (h : passStep c d)
    (hc : c.is_infected = true) : d.is_infected = true := by
  rw [is_infected_iff] at hc ⊢
  rcases h.2.2 with h' | ⟨_, h'⟩
  · rw [h']
    exact hc
  · rw [h']

theorem passStep_vuln_or_inf {c d : Cell} (h : passStep c d)
    (hc : c.is_vulnerable = true ∨ c.is_infected = true) :
    d.is_vulnerable = true ∨ d.is_infected = true := by
  rcases h.2.2 with h' | ⟨_, h'⟩
  · rw [is_vulnerable_iff, is_infected_iff, h']
    rw [is_vulnerable_iff, is_infected_iff] at hc
    exact hc
  · refine Or.inr ?_
    rw [is_infected_iff, h']

theorem passStep_immune_eq {c d : Cell} (h : passStep c d)
    (hc : c.is_immune = true) : d = c := by
  obtain ⟨hl, hd, hs⟩ := h
  rw [is_immune_iff] at hc
  rcases hs with h' | ⟨hcv, h'⟩
  · cases c
    cases d
    simp_all
  · exfalso
    rw [hc] at hcv
    simp [VULNERABLE, IMMUNE, INFECTED] at hcv

theorem stepOpt_refl (o : Option Cell) : stepOpt o o := by
  cases o with
  | none => exact Or.inl ⟨rfl, rfl⟩
  | some c => exact Or.inr ⟨c, c, rfl, rfl, passStep_refl c⟩

theorem stepOpt_trans {o p q : Option Cell} (h1 : stepOpt o p)
    (h2 : stepOpt p q) : stepOpt o q := by
  rcases h1 with ⟨ho, hp⟩ | ⟨c, d, ho, hp, hcd⟩
  · rcases h2 with ⟨hp', hq⟩ | ⟨c', d', hp', hq, h'⟩
    · exact Or.inl ⟨ho, hq⟩
    · rw [hp] at hp'
      cases hp'
  · rcases h2 with ⟨hp', hq⟩ | ⟨c', d', hp', hq', h'⟩
    · rw [hp] at hp'
      cases hp'
    · have hdc : c' = d := (Option.some.inj (hp.symm.trans hp')).symm
      subst hdc
      exact Or.inr ⟨c, d', ho, hq', passStep_trans hcd h'⟩

theorem stepOpt_some {o p : Option Cell} {c : Cell} (h : stepOpt o p)
    (hc : o = some c) : ∃ d, p = some d ∧ passStep c d := by
  rcases h with ⟨ho, _⟩ | ⟨c', d, ho, hp, h'⟩
  · rw [hc] at ho
    cases ho
  · rw [hc] at ho
    have hcc : c' = c := (Option.some.inj ho).symm
    subst hcc
    exact ⟨d, hp, h'⟩

theorem contact_fst_passStep (a b : Cell) : passStep a (a.contact_with b).1 := by
  unfold Cell.contact_with
  split_ifs with h
  · refine ⟨rfl, rfl, Or.inr ⟨?_, rfl⟩⟩
    simp only [Bool.or_eq_true, Bool.and_eq_true] at h
    rcases h with ⟨h, _⟩ | ⟨h, _⟩
    · exact Or.inl (is_vulnerable_iff.1 h)
    · exact Or.inr (is_infected_iff.1 h)
  · exact passStep_refl a

theorem contact_snd_passStep (a b : Cell) : passStep b (a.contact_with b).2 := by
  unfold Cell.contact_with
  split_ifs with h
  · refine ⟨rfl, rfl, Or.inr ⟨?_, rfl⟩⟩
    simp only [Bool.or_eq_true, Bool.and_eq_true] at h
    rcases h with ⟨_, h⟩ | ⟨_, h⟩
    · exact Or.inr (is_infected_iff.1 h)
    · exact Or.inl (is_vulnerable_iff.1 h)
  · exact passStep_refl b

theorem getElem?_lt_length {pop : List Cell} {k : Nat} {c : Cell}
    (h : pop[k]? = some c) : k < pop.length := by
  by_contra hk
  rw [List.getElem?_eq_none (le_of_not_lt hk)] at h
  cases h

theorem applyContact_length (pop : List Cell) (p : Nat × Nat) :
    (applyContact pop p).length = pop.length := by
  rcases h1 : pop[p.1]? with _ | a <;> rcases h2 : pop[p.2]? with _ | b <;>
    simp only [applyContact, h1, h2]
  split_ifs <;> simp [List.length_set]

theorem applyContact_stepOpt (pop : List Cell) (p : Nat × Nat) (k : Nat) :
    stepOpt pop[k]? (applyContact pop p)[k]? := by
  rcases h1 : pop[p.1]? with _ | a
  · simp only [applyContact, h1]
    exact stepOpt_refl _
  · rcases h2 : pop[p.2]? with _ | b
    · simp only [applyContact, h1, h2]
      exact stepOpt_refl _
    · simp only [applyContact, h1, h2]
      split_ifs with hd
      · by_cases hk2 : p.2 = k
        · subst hk2
          rw [List.getElem?_set_self
            (by rw [List.length_set]; exact getElem?_lt_length h2)]
          exact Or.inr ⟨b, _, h2, rfl, contact_snd_passStep a b⟩
        · rw [List.getElem?_set_ne hk2]
          by_cases hk1 : p.1 = k
          · subst hk1
            rw [List.getElem?_set_self (getElem?_lt_length h1)]
            exact Or.inr ⟨a, _, h1, rfl, contact_fst_passStep a b⟩
          · rw [List.getElem?_set_ne hk1]
            exact stepOpt_refl _
      · exact stepOpt_refl _

theorem runPairs_cons (p : Nat × Nat) (ps : List (Nat × Nat))
    (pop : List Cell) :
    runPairs (p :: ps) pop = runPairs ps (applyContact pop p) := rfl

theorem runPairs_length (ps : List (Nat × Nat)) (pop : List Cell) :
    (runPairs ps pop).length = pop.length := by
  induction ps generalizing pop with
  | nil => rfl
  | cons p ps ih =>
    rw [runPairs_cons, ih, applyContact_length]

theorem runPairs_stepOpt (ps : List (Nat × Nat)) (pop : List Cell)
    (k : Nat) : stepOpt pop[k]? (runPairs ps pop)[k]? := by
  induction ps generalizing pop with
  | nil => exact stepOpt_refl _
  | cons p ps ih =>
    rw [runPairs_cons]
    exact stepOpt_trans (applyContact_stepOpt pop p k) (ih (applyContact pop p))

theorem mem_allPairs {n i j : Nat} (hij : i < j) (hj : j < n) :
    (i, j) ∈ allPairs n := by
  unfold allPairs
  rw [List.mem_flatMap]
  refine ⟨i, List.mem_range.2 (lt_trans hij hj), ?_⟩
  rw [List.mem_map]
  refine ⟨j, ?_, rfl⟩
  rw [List.mem_range'_1]
  omega

theorem contact_both_infected {a b : Cell}
    (hav : a.is_vulnerable = true ∨ a.is_infected = true)
    (hbv : b.is_vulnerable = true ∨ b.is_infected = true)
    (hone : a.is_infected = true ∨ b.is_infected = true) :
    (a.contact_with b).1.is_infected = true ∧
      (a.contact_with b).2.is_infected = true := by
  rcases hav with ha | ha <;> rcases hbv with hb | hb
  · rcases hone with h | h
    · rw [vulnerable_not_infected ha] at h
      cases h
    · rw [vulnerable_not_infected hb] at h
      cases h
  · have hcond : (a.is_vulnerable && b.is_infected ||
        a.is_infected && b.is_vulnerable) = true := by
      rw [ha, hb]
      simp
    rw [Cell.contact_with, if_pos hcond]
    constructor <;> (rw [is_infected_iff]; rfl)
  · have hcond : (a.is_vulnerable && b.is_infected ||
        a.is_infected && b.is_vulnerable) = true := by
      rw [ha, hb]
      simp
    rw [Cell.contact_with, if_pos hcond]
    constructor <;> (rw [is_infected_iff]; rfl)
  · have hcond : (a.is_vulnerable && b.is_infected ||
        a.is_infected && b.is_vulnerable) = false := by
      rw [infected_not_vulnerable ha, infected_not_vulnerable hb]
      simp
    rw [Cell.contact_with, if_neg (by rw [hcond]; simp)]
    exact ⟨ha, hb⟩

/-- During a contact pass that visits the index pair `(i, j)` at some
point, if the two cells there were within the contact radius and both
in the vulnerable-or-infected tiers with at least one infected at the
start of the pass, both end the pass infected. -/
theorem runPairs_pair_infects (l₁ l₂ : List (Nat × Nat)) {i j : Nat}
    (hij : i ≠ j) {pop : List Cell} {a b : Cell}
    (hi : pop[i]? = some a) (hj : pop[j]? = some b)
    (hav : a.is_vulnerable = true ∨ a.is_infected = true)
    (hbv : b.is_vulnerable = true ∨ b.is_infected = true)
    (hone : a.is_infected = true ∨ b.is_infected = true)
    (hd : a.location.distSq b.location ≤ CELL_RADIUS * CELL_RADIUS) :
    ∃ x y, (runPairs (l₁ ++ (i, j) :: l₂) pop)[i]? = some x ∧
      (runPairs (l₁ ++ (i, j) :: l₂) pop)[j]? = some y ∧
      x.is_infected = true ∧ y.is_infected = true := by
  obtain ⟨a₁, ha₁, hpa⟩ := stepOpt_some (runPairs_stepOpt l₁ pop i) hi
  obtain ⟨b₁, hb₁, hpb⟩ := stepOpt_some (runPairs_stepOpt l₁ pop j) hj
  have hd₁ : a₁.location.distSq b₁.location ≤ CELL_RADIUS * CELL_RADIUS := by
    rw [hpa.1, hpb.1]
    exact hd
  have hav₁ := passStep_vuln_or_inf hpa hav
  have hbv₁ := passStep_vuln_or_inf hpb hbv
  have hone₁ : a₁.is_infected = true ∨ b₁.is_infected = true := by
    rcases hone with h | h
    · exact Or.inl (passStep_infected hpa h)
    · exact Or.inr (passStep_infected hpb h)
  have happly : applyContact (runPairs l₁ pop) (i, j) =
      ((runPairs l₁ pop).set i (a₁.contact_with b₁).1).set j
        (a₁.contact_with b₁).2 := by
    simp only [applyContact, ha₁, hb₁]
    rw [if_pos hd₁]
  obtain ⟨hinf1, hinf2⟩ := contact_both_infected hav₁ hbv₁ hone₁
  have hlen_i : i < (runPairs l₁ pop).length := getElem?_lt_length ha₁
  have hlen_j : j < (runPairs l₁ pop).length := getElem?_lt_length hb₁
  have hai : (applyContact (runPairs l₁ pop) (i, j))[i]? =
      some (a₁.contact_with b₁).1 := by
    rw [happly, List.getElem?_set_ne (fun h => hij h.symm),
      List.getElem?_set_self hlen_i]
  have haj : (applyContact (runPairs l₁ pop) (i, j))[j]? =
      some (a₁.contact_with b₁).2 := by
    rw [happly,
      List.getElem?_set_self (by rw [List.length_set]; exact hlen_j)]
  have hsplit : runPairs (l₁ ++ (i, j) :: l₂) pop =
      runPairs l₂ (applyContact (runPairs l₁ pop) (i, j)) := by
    unfold runPairs
    rw [List.foldl_append]
    rfl
  rw [hsplit]
  obtain ⟨a₂, ha₂, hpa₂⟩ := stepOpt_some (runPairs_stepOpt l₂ _ i) hai
  obtain ⟨b₂, hb₂, hpb₂⟩ := stepOpt_some (runPairs_stepOpt l₂ _ j) haj
  exact ⟨a₂, b₂, ha₂, hb₂, passStep_infected hpa₂ hinf1,
    passStep_infected hpb₂ hinf2⟩

/-- A `check_contacts` pass over a two-cell population whose single
pair does not satisfy the infection condition changes nothing. -/
theorem check_contacts_pair_noop (a b : Cell)
    (hcond : (a.is_vulnerable && b.is_infected ||
      a.is_infected && b.is_vulnerable) = false) :
    Model.check_contacts [a, b] = [a, b] := by
  rw [show Model.check_contacts [a, b] = applyContact [a, b] (0, 1) from rfl]
  simp only [applyContact, List.getElem?_cons_zero, List.getElem?_cons_succ]
  split_ifs with hdist
  · rw [Cell.contact_with, if_neg (by rw [hcond]; simp)]
    rfl
  · rfl

/-- C1 (amended).  In any population, a pair of cells within the
contact radius at the start of a `check_contacts` pass with one
infected and the other vulnerable ends the pass with both infected.
The no-change guarantees hold for the pass over the pair alone: a
two-cell population of two vulnerable cells within radius is unchanged,
and a two-cell population in which either cell is immune (for instance
an immune cell near an infected one) is unchanged.  (In a larger
population a third infected cell can infect a member of such a pair
during the same pass; see the counterexample.) -/
theorem check_contacts_pair_spec :
    (∀ (pop : List Cell) (i j : Nat) (a b : Cell), i < j →
      pop[i]? = some a → pop[j]? = some b →
      a.location.distSq b.location ≤ CELL_RADIUS * CELL_RADIUS →
      ((a.is_infected = true ∧ b.is_vulnerable = true) ∨
        (a.is_vulnerable = true ∧ b.is_infected = true)) →
      ∃ x y, (Model.check_contacts pop)[i]? = some x ∧
        (Model.check_contacts pop)[j]? = some y ∧
        x.is_infected = true ∧ y.is_infected = true) ∧
    (∀ a b : Cell, a.is_vulnerable = true → b.is_vulnerable = true →
      a.location.distSq b.location ≤ CELL_RADIUS * CELL_RADIUS →
      Model.check_contacts [a, b] = [a, b]) ∧
    (∀ a b : Cell, a.is_immune = true ∨ b.is_immune = true →
      Model.check_contacts [a, b] = [a, b]) := by
  refine ⟨fun pop i j a b hij hi hj hd hcase => ?_, fun a b ha hb _ => ?_,
    fun a b h => ?_⟩
  · have hmem : (i, j) ∈ allPairs pop.length :=
      mem_allPairs hij (getElem?_lt_length hj)
    obtain ⟨l₁, l₂, hsplit⟩ := List.append_of_mem hmem
    rw [Model.check_contacts, hsplit]
    rcases hcase with ⟨ha, hb⟩ | ⟨ha, hb⟩
    · exact runPairs_pair_infects l₁ l₂ (Nat.ne_of_lt hij) hi hj
        (Or.inr ha) (Or.inl hb) (Or.inl ha) hd
    · exact runPairs_pair_infects l₁ l₂ (Nat.ne_of_lt hij) hi hj
        (Or.inl ha) (Or.inr hb) (Or.inr hb) hd
  · exact check_contacts_pair_noop a b
      (by rw [vulnerable_not_infected ha, vulnerable_not_infected hb]; simp)
  · rcases h with ha | hb
    · exact check_contacts_pair_noop a b
        (by rw [immune_not_vulnerable ha, immune_not_infected ha]; simp)
    · exact check_contacts_pair_noop a b
        (by rw [immune_not_vulnerable hb, immune_not_infected hb]; simp)

/-- Witness for C1: in the three-cell population the infected cell 0
and the vulnerable cell 1 are within radius and both end the pass
infected; a two-cell population of an immune cell next to an infected
one is unchanged by the pass. -/
theorem check_contacts_pair_spec_witness :
    (∃ x y, (Model.check_contacts cexPop)[0]? = some x ∧
      (Model.check_contacts cexPop)[1]? = some y ∧
      x.is_infected = true ∧ y.is_infected = true) ∧
    Model.check_contacts [cellImm, cexA] = [cellImm, cexA] :=
  ⟨check_contacts_pair_spec.1 cexPop 0 1 cexA cexB (by decide) rfl rfl
      (by norm_num [cexA, cexB, Point.distSq, CELL_RADIUS])
      (Or.inl ⟨by decide, by decide⟩),
    check_contacts_pair_spec.2.2 cellImm cexA (Or.inl (by decide))⟩

theorem cex_step01 : applyContact cexPop (0, 1) = [cexA1, cexB1, cexC] := by
  norm_num [applyContact, cexPop, cexA, cexB, cexC, cexA1, cexB1,
    Cell.contact_with, Cell.contract_disease, Cell.is_vulnerable,
    Cell.is_infected, Point.distSq, CELL_RADIUS, VULNERABLE, INFECTED]

theorem cex_step02 : applyContact [cexA1, cexB1, cexC] (0, 2) =
    [cexA1, cexB1, cexC] := by
  norm_num [applyContact, cexA1, cexB1, cexC, Cell.contact_with,
    Cell.contract_disease, Cell.is_vulnerable, Cell.is_infected,
    Point.distSq, CELL_RADIUS, VULNERABLE, INFECTED]

theorem cex_step12 : applyContact [cexA1, cexB1, cexC] (1, 2) =
    [cexA1, cexB1, cexC1] := by
  norm_num [applyContact, cexA1, cexB1, cexC, cexC1, Cell.contact_with,
    Cell.contract_disease, Cell.is_vulnerable, Cell.is_infected,
    Point.distSq, CELL_RADIUS, VULNERABLE, INFECTED]

/-- The `check_contacts` pass over the three-cell row, in the
population pair order `(0,1), (0,2), (1,2)`: the infection spreads from
cell 0 to cell 1 and then on from cell 1 to cell 2 within the single
pass. -/
theorem cex_std_eval : Model.check_contacts cexPop = [cexA1, cexB1, cexC1] := by
  have hp : allPairs 3 = [(0, 1), (0, 2), (1, 2)] := by decide
  have l3 : cexPop.length = 3 := rfl
  rw [Model.check_contacts, l3, hp, runPairs, List.foldl_cons, cex_step01,
    List.foldl_cons, cex_step02, List.foldl_cons, cex_step12, List.foldl_nil]

theorem cex_alt_step12 : applyContact cexPop (1, 2) = cexPop := by
  norm_num [applyContact, cexPop, cexA, cexB, cexC, Cell.contact_with,
    Cell.contract_disease, Cell.is_vulnerable, Cell.is_infected,
    Point.distSq, CELL_RADIUS, VULNERABLE, INFECTED]

/-- The same pairs visited in the order `(1,2), (0,1), (0,2)`: the
vulnerable pair is inspected before cell 1 is infected, so cell 2 stays
vulnerable to the end of the pass. -/
theorem cex_alt_eval : runPairs cexAltOrder cexPop = [cexA1, cexB1, cexC] := by
  rw [cexAltOrder, runPairs, List.foldl_cons, cex_alt_step12,
    List.foldl_cons, cex_step01, List.foldl_cons, cex_step02, List.foldl_nil]

/-- Counterexample to C1 as stated: cells 1 and 2 of the three-cell row
are both vulnerable and within the contact radius at the start of the
pass, yet the pass does not leave them unchanged — both end it
infected, because the infected cell 0 infects cell 1 earlier in the
same pass. -/
theorem check_contacts_pair_counterexample :
    cexB.is_vulnerable = true ∧ cexC.is_vulnerable = true ∧
    cexPop[1]? = some cexB ∧ cexPop[2]? = some cexC ∧
    cexB.location.distSq cexC.location ≤ CELL_RADIUS * CELL_RADIUS ∧
    (Model.check_contacts cexPop)[2]? = some cexC1 ∧
    cexC1.sickness ≠ cexC.sickness :=
  ⟨by decide, by decide, rfl, rfl,
    by norm_num [cexB, cexC, Point.distSq, CELL_RADIUS],
    by rw [cex_std_eval]; rfl, by decide⟩

/-- Counterexample to C4 as stated: visiting the same unordered pairs
of the three-cell row in a different order produces a different
end-of-pass population — the chain of infections depends on the pair
visit order. -/
theorem check_contacts_order_counterexample :
    (allPairs cexPop.length).Perm cexAltOrder ∧
    (runPairs cexAltOrder cexPop).map Cell.sickness ≠
      (Model.check_contacts cexPop).map Cell.sickness := by
  refine ⟨by decide, ?_⟩
  rw [cex_std_eval, cex_alt_eval]
  decide

/-- C4 (amended).  The effect of a single `contact_with` call is
symmetric in which cell is `self`: swapping the roles of the two cells
swaps the resulting pair, so which cell object calls the method does
not matter.  `check_contacts` itself visits the pairs in population
order (outer index < inner index); its end-of-pass result is not, in
general, independent of that order (see the counterexample). -/
theorem contact_with_swap :
    (∀ a b : Cell,
      a.contact_with b = ((b.contact_with a).2, (b.contact_with a).1)) ∧
    (∀ pop : List Cell,
      Model.check_contacts pop = runPairs (allPairs pop.length) pop) := by
  refine ⟨fun a b => ?_, fun pop => rfl⟩
  unfold Cell.contact_with
  have hcomm : (a.is_vulnerable && b.is_infected ||
        a.is_infected && b.is_vulnerable) =
      (b.is_vulnerable && a.is_infected || b.is_infected && a.is_vulnerable) := by
    cases ha : a.is_vulnerable <;> cases hb : a.is_infected <;>
      cases hc : b.is_vulnerable <;> cases hd : b.is_infected <;> rfl
  rw [hcomm]
  split_ifs <;> rfl

theorem tick_tier_mono (c : Cell) :
    healthTier c.sickness ≤ healthTier (Cell.tick c).sickness := by
  rw [tick_sickness]
  unfold healthTier
  simp only [INFECTED, IMMUNE]
  split_ifs <;> omega

theorem tick_immune_fixed {c : Cell} (h : c.sickness = IMMUNE) :
    (Cell.tick c).sickness = IMMUNE := by
  rw [tick_sickness, h]
  norm_num [IMMUNE, INFECTED]

theorem passStep_tier_mono {c d : Cell} (h : passStep c d) :
    healthTier c.sickness ≤ healthTier d.sickness := by
  rcases h.2.2 with h' | ⟨hc, h'⟩
  · rw [h']
  · rw [h']
    unfold healthTier
    simp only [INFECTED, IMMUNE, VULNERABLE] at hc ⊢
    rcases hc with h0 | h1 <;> split_ifs <;> omega

/-- One `Model.tick` step, seen from a single population index: the
cell there evolves with non-decreasing health tier, and an immune cell
stays immune. -/
theorem tick_cell_step (m : Model) (k : Nat) {c : Cell}
    (hc : m.population[k]? = some c) :
    ∃ d, (Model.tick m).population[k]? = some d ∧
      healthTier c.sickness ≤ healthTier d.sickness ∧
      (c.sickness = IMMUNE → d.sickness = IMMUNE) := by
  have hmap : (m.population.map fun x => Model.enforce_bounds x.tick)[k]? =
      some (Model.enforce_bounds c.tick) := by
    rw [List.getElem?_map, hc]
    rfl
  have hrun : stepOpt
      ((m.population.map fun x => Model.enforce_bounds x.tick)[k]?)
      ((Model.tick m).population[k]?) :=
    runPairs_stepOpt _ _ k
  obtain ⟨d, hd, hps⟩ := stepOpt_some hrun hmap
  refine ⟨d, hd, ?_, ?_⟩
  · calc healthTier c.sickness
        ≤ healthTier (Cell.tick c).sickness := tick_tier_mono c
      _ = healthTier (Model.enforce_bounds c.tick).sickness := by
          rw [enforce_bounds_sickness]
      _ ≤ healthTier d.sickness := passStep_tier_mono hps
  · intro hcs
    have h1 : (Model.enforce_bounds c.tick).sickness = IMMUNE := by
      rw [enforce_bounds_sickness]
      exact tick_immune_fixed hcs
    have himm : (Model.enforce_bounds c.tick).is_immune = true :=
      is_immune_iff.2 h1
    rw [passStep_immune_eq hps himm, h1]

/-- C3 (amended).  Along any number of `Model.tick` steps every cell's
health tier is non-decreasing (Vulnerable may become Infected, Infected
may become Immune, never the reverse) and once a cell is immune its
health state never changes again.  Numerically, however, the tiers are
not ordered `Vulnerable < Infected-range < Immune`: the baseline and
the infected range are ordered, but the immune value is a sentinel
below both (see the counterexample). -/
theorem health_tier_monotone :
    (∀ (m : Model) (n k : Nat) (c d : Cell),
      m.population[k]? = some c →
      (Model.tick^[n] m).population[k]? = some d →
      healthTier c.sickness ≤ healthTier d.sickness ∧
        (c.is_immune = true → d.sickness = IMMUNE ∧ d.is_immune = true)) ∧
    VULNERABLE < INFECTED ∧ IMMUNE < INFECTED ∧ IMMUNE ≠ VULNERABLE := by
  refine ⟨?_, by decide, by decide, by decide⟩
  intro m n
  induction n generalizing m with
  | zero =>
    intro k c d hc hd
    rw [Function.iterate_zero_apply, hc] at hd
    have hcd : c = d := Option.some.inj hd
    subst hcd
    exact ⟨le_refl _, fun h => ⟨is_immune_iff.1 h, h⟩⟩
  | succ n ih =>
    intro k c d hc hd
    rw [Function.iterate_succ_apply] at hd
    obtain ⟨c₁, hc₁, hle, himm⟩ := tick_cell_step m k hc
    obtain ⟨hle₂, himm₂⟩ := ih (Model.tick m) k c₁ d hc₁ hd
    exact ⟨le_trans hle hle₂,
      fun h => himm₂ (is_immune_iff.2 (himm (is_immune_iff.1 h)))⟩

/-- Counterexample to the numeric clause of C3 as stated: with the
source predicates, the immune sentinel lies below the infected range
(and below the vulnerable baseline), not above them. -/
theorem health_tier_numeric_counterexample :
    ¬(VULNERABLE < INFECTED ∧ INFECTED < IMMUNE) ∧ IMMUNE < VULNERABLE := by
  decide

/-- Witness for C3 at a one-cell immune population and zero steps. -/
theorem health_tier_monotone_witness :
    healthTier cellImm.sickness ≤ healthTier cellImm.sickness ∧
      (cellImm.is_immune = true →
        cellImm.sickness = IMMUNE ∧ cellImm.is_immune = true) :=
  health_tier_monotone.1 { population := [cellImm] } 0 0 cellImm cellImm
    rfl rfl

end Contagion
